import Mathlib

/-!
Shallow embedding of `src/luv_tls_conn.c` (the luvit TLS connection driver).

The module drives an OpenSSL engine purely through two in-memory BIOs.
We embed:
  * memory BIOs as FIFO byte lists with retry flags (`MemBio`);
  * the OpenSSL engine (SSL_accept / SSL_connect / SSL_read / SSL_write /
    SSL_get_error / SSL_is_init_finished) as an abstract deterministic
    state machine `EngineModel σ` over an opaque engine-state type `σ` —
    the engine is an external collaborator, not code of this repository;
  * the connection struct `tls_conn_t` and every Lua-facing operation as a
    pure state-passing function translated line by line from the C.
Machine ints are modelled as `Int`; byte strings as `List Nat`.
-/

/-- SSL_get_error result codes, from OpenSSL ssl.h. -/
def SSL_ERROR_NONE : Int := 0

def SSL_ERROR_SSL : Int := 1

def SSL_ERROR_WANT_READ : Int := 2

def SSL_ERROR_WANT_WRITE : Int := 3

def SSL_ERROR_SYSCALL : Int := 5

/-- SSL_set_verify mode bits, from OpenSSL ssl.h. -/
def SSL_VERIFY_NONE : Nat := 0

def SSL_VERIFY_PEER : Nat := 1

def SSL_VERIFY_FAIL_IF_NO_PEER_CERT : Nat := 2

/-- A memory BIO (`BIO_s_mem`): a FIFO byte buffer plus the retry flags that
`BIO_should_read` / `BIO_should_write` consult. -/
structure MemBio where
  data : List Nat
  flag_read : Bool
  flag_write : Bool
deriving DecidableEq, Repr

def emptyBio : MemBio := ⟨[], false, false⟩

def BIO_should_read (b : MemBio) : Bool := b.flag_read

def BIO_should_write (b : MemBio) : Bool := b.flag_write

/-- `BIO_write` on a memory BIO: appends and reports the byte count; a memory
sink never fails, and the write clears the retry flags. -/
def BIO_write (b : MemBio) (bytes : List Nat) : MemBio × Int :=
  (⟨b.data ++ bytes, false, false⟩, (bytes.length : Int))

/-- `BIO_read` on a memory BIO: takes up to `maxLen` queued bytes; on an empty
buffer it returns -1 and raises the should-read retry flag. -/
def BIO_read (b : MemBio) (maxLen : Nat) : MemBio × Int × List Nat :=
  if b.data = [] then
    (⟨[], true, false⟩, -1, [])
  else
    (⟨b.data.drop maxLen, false, false⟩,
     ((b.data.take maxLen).length : Int), b.data.take maxLen)

/-- `BIO_pending`: byte count queued in a memory BIO. -/
def BIO_pending (b : MemBio) : Nat := b.data.length

/-- The OpenSSL engine as an abstract deterministic state machine over an
opaque state `σ`.  `accept`/`connect` drive the handshake, `sslRead` pulls up
to `n` decrypted bytes, `sslWrite` submits cleartext, `getError` is
`SSL_get_error` on the state produced by a failed call. -/
structure EngineModel (σ : Type) where
  initFinished : σ → Bool
  accept : σ → σ × Int
  connect : σ → σ × Int
  sslRead : σ → Nat → σ × Int × List Nat
  sslWrite : σ → List Nat → σ × Int
  getError : σ → Int → Int

/-- `SSL_read(ssl, pool, n)` can deposit at most `n` bytes into the pool: the
API contract of the external engine. -/
def ReadRespectsMax {σ : Type} (E : EngineModel σ) : Prop :=
  ∀ s n, (E.sslRead s n).2.2.length ≤ n

/-- The `tls_conn_t` struct: engine handle, the two memory BIOs, role flag and
the sticky `error` field. -/
structure tls_conn_t (σ : Type) where
  ssl : σ
  bio_read : MemBio
  bio_write : MemBio
  is_server : Bool
  error : Int
deriving DecidableEq, Repr

/-- `tls_conn_verify_cb`: ignores all preverify errors and lets the handshake
continue (always returns 1). -/
def tls_conn_verify_cb (preverify_ok : Int) : Int := 1

/-- The verify-mode computation in `newCONN`: server with request-cert off →
NONE; server with request-cert on → PEER, or-ing in FAIL_IF_NO_PEER_CERT when
reject-unauthorized is also set; client → NONE. -/
def newCONN_verify_mode (is_server is_request_cert is_reject_unauthorized : Bool) : Nat :=
  if is_server then
    if !is_request_cert then
      SSL_VERIFY_NONE
    else
      if is_reject_unauthorized then
        SSL_VERIFY_PEER ||| SSL_VERIFY_FAIL_IF_NO_PEER_CERT
      else
        SSL_VERIFY_PEER
  else
    SSL_VERIFY_NONE

/-- `newCONN`: fresh connection with two empty memory BIOs, the role flag and
a zero error field, paired with the verify mode installed via
`SSL_set_verify`. -/
def newCONN (σ : Type) (ssl0 : σ)
    (is_server is_request_cert is_reject_unauthorized : Bool) :
    tls_conn_t σ × Nat :=
  (⟨ssl0, emptyBio, emptyBio, is_server, 0⟩,
   newCONN_verify_mode is_server is_request_cert is_reject_unauthorized)

/-- `tls_handle_ssl_error_x`: non-negative statuses pass through; WANT_READ /
WANT_WRITE / ERROR_NONE classify to 0; any other negative status is returned
as-is.  Note the fatal branch only prints to a throwaway BIO: it does NOT
touch the connection's `error` field. -/
def tls_handle_ssl_error_x {σ : Type} (E : EngineModel σ) (ssl : σ) (rv : Int) : Int :=
  if 0 ≤ rv then
    rv
  else
    let err := E.getError ssl rv
    if err = SSL_ERROR_NONE then 0
    else if err = SSL_ERROR_WANT_WRITE then 0
    else if err = SSL_ERROR_WANT_READ then 0
    else rv

/-- `tls_handle_bio_error_x`: non-negative statuses pass through; a retrying
BIO (should-write / should-read) classifies to 0; otherwise the fatal status
is stored in `tc->error` and returned. -/
def tls_handle_bio_error_x {σ : Type} (tc : tls_conn_t σ) (bio : MemBio) (rv : Int) :
    tls_conn_t σ × Int :=
  if 0 ≤ rv then
    (tc, rv)
  else if BIO_should_write bio then
    (tc, 0)
  else if BIO_should_read bio then
    (tc, 0)
  else
    ({ tc with error := rv }, rv)

/-- `tls_conn_start`: when the handshake is unfinished, run one SSL_accept
(server) or SSL_connect (client) step, classify it (result discarded), and
push the raw status; otherwise push 0 untouched. -/
def tls_conn_start {σ : Type} (E : EngineModel σ) (tc : tls_conn_t σ) :
    tls_conn_t σ × Int :=
  if !(E.initFinished tc.ssl) then
    let sr := if tc.is_server then E.accept tc.ssl else E.connect tc.ssl
    let _ := tls_handle_ssl_error_x E sr.1 sr.2
    ({ tc with ssl := sr.1 }, sr.2)
  else
    (tc, 0)

/-- `tls_conn_enc_in` (feedCiphertext): BIO_write the payload into
`bio_read`, run the BIO error handler on the result, push the raw count. -/
def tls_conn_enc_in {σ : Type} (tc : tls_conn_t σ) (data : List Nat) :
    tls_conn_t σ × Int :=
  let wr := BIO_write tc.bio_read data
  let tc2 := { tc with bio_read := wr.1 }
  let hb := tls_handle_bio_error_x tc2 wr.1 wr.2
  (hb.1, wr.2)

/-- `tls_conn_enc_out` (drainCiphertext): BIO_read up to 4096 bytes (the
stack pool size) from `bio_write`, run the BIO error handler, push the raw
count and the bytes (empty string unless the count is positive). -/
def tls_conn_enc_out {σ : Type} (tc : tls_conn_t σ) :
    tls_conn_t σ × Int × List Nat :=
  let rd := BIO_read tc.bio_write 4096
  let tc2 := { tc with bio_write := rd.1 }
  let hb := tls_handle_bio_error_x tc2 rd.1 rd.2.1
  (hb.1, rd.2.1, if 0 < rd.2.1 then rd.2.2 else [])

/-- `tls_conn_enc_pending`: bytes queued in `bio_write`. -/
def tls_conn_enc_pending {σ : Type} (tc : tls_conn_t σ) : Nat :=
  BIO_pending tc.bio_write

/-- `tls_conn_clear_pending`: bytes queued in `bio_read`. -/
def tls_conn_clear_pending {σ : Type} (tc : tls_conn_t σ) : Nat :=
  BIO_pending tc.bio_read

/-- `tls_conn_clear_out` (readCleartext): when the handshake is unfinished,
run one accept/connect step first; a negative step status returns immediately
with no SSL_read; otherwise (status ≥ 0, handshake possibly still
unfinished) SSL_read up to 4096 bytes from the engine. -/
def tls_conn_clear_out {σ : Type} (E : EngineModel σ) (tc : tls_conn_t σ) :
    tls_conn_t σ × Int × List Nat :=
  if !(E.initFinished tc.ssl) then
    let sr := if tc.is_server then E.accept tc.ssl else E.connect tc.ssl
    let _ := tls_handle_ssl_error_x E sr.1 sr.2
    let tc2 := { tc with ssl := sr.1 }
    if sr.2 < 0 then
      (tc2, sr.2, [])
    else
      let rd := E.sslRead tc2.ssl 4096
      let _ := tls_handle_ssl_error_x E rd.1 rd.2.1
      ({ tc2 with ssl := rd.1 }, rd.2.1, if 0 < rd.2.1 then rd.2.2 else [])
  else
    let rd := E.sslRead tc.ssl 4096
    let _ := tls_handle_ssl_error_x E rd.1 rd.2.1
    ({ tc with ssl := rd.1 }, rd.2.1, if 0 < rd.2.1 then rd.2.2 else [])

/-- `tls_conn_clear_in` (writeCleartext): when the handshake is unfinished,
run one accept/connect step first; a negative step status returns immediately
with no SSL_write; otherwise SSL_write the payload and push the raw count. -/
def tls_conn_clear_in {σ : Type} (E : EngineModel σ) (tc : tls_conn_t σ)
    (data : List Nat) : tls_conn_t σ × Int :=
  if !(E.initFinished tc.ssl) then
    let sr := if tc.is_server then E.accept tc.ssl else E.connect tc.ssl
    let _ := tls_handle_ssl_error_x E sr.1 sr.2
    let tc2 := { tc with ssl := sr.1 }
    if sr.2 < 0 then
      (tc2, sr.2)
    else
      let wr := E.sslWrite tc2.ssl data
      let _ := tls_handle_ssl_error_x E wr.1 wr.2
      ({ tc2 with ssl := wr.1 }, wr.2)
  else
    let wr := E.sslWrite tc.ssl data
    let _ := tls_handle_ssl_error_x E wr.1 wr.2
    ({ tc with ssl := wr.1 }, wr.2)

/-- `tls_conn_get_error`: pushes the stored code when non-zero, else nil. -/
def tls_conn_get_error {σ : Type} (tc : tls_conn_t σ) : Option Int :=
  if tc.error ≠ 0 then some tc.error else none

/-- `tls_conn_clear_error`: resets the stored code to 0. -/
def tls_conn_clear_error {σ : Type} (tc : tls_conn_t σ) : tls_conn_t σ :=
  { tc with error := 0 }

/-- X.509 verification result codes, from OpenSSL x509_vfy.h. -/
def X509_V_OK : Int := 0

def X509_V_ERR_UNABLE_TO_GET_ISSUER_CERT : Int := 2

def X509_V_ERR_UNABLE_TO_GET_CRL : Int := 3

def X509_V_ERR_UNABLE_TO_DECRYPT_CERT_SIGNATURE : Int := 4

def X509_V_ERR_UNABLE_TO_DECRYPT_CRL_SIGNATURE : Int := 5

def X509_V_ERR_UNABLE_TO_DECODE_ISSUER_PUBLIC_KEY : Int := 6

def X509_V_ERR_CERT_SIGNATURE_FAILURE : Int := 7

def X509_V_ERR_CRL_SIGNATURE_FAILURE : Int := 8

def X509_V_ERR_CERT_NOT_YET_VALID : Int := 9

def X509_V_ERR_CERT_HAS_EXPIRED : Int := 10

def X509_V_ERR_CRL_NOT_YET_VALID : Int := 11

def X509_V_ERR_CRL_HAS_EXPIRED : Int := 12

def X509_V_ERR_ERROR_IN_CERT_NOT_BEFORE_FIELD : Int := 13

def X509_V_ERR_ERROR_IN_CERT_NOT_AFTER_FIELD : Int := 14

def X509_V_ERR_ERROR_IN_CRL_LAST_UPDATE_FIELD : Int := 15

def X509_V_ERR_ERROR_IN_CRL_NEXT_UPDATE_FIELD : Int := 16

def X509_V_ERR_OUT_OF_MEM : Int := 17

def X509_V_ERR_DEPTH_ZERO_SELF_SIGNED_CERT : Int := 18

def X509_V_ERR_SELF_SIGNED_CERT_IN_CHAIN : Int := 19

def X509_V_ERR_UNABLE_TO_GET_ISSUER_CERT_LOCALLY : Int := 20

def X509_V_ERR_UNABLE_TO_VERIFY_LEAF_SIGNATURE : Int := 21

def X509_V_ERR_CERT_CHAIN_TOO_LONG : Int := 22

def X509_V_ERR_CERT_REVOKED : Int := 23

def X509_V_ERR_INVALID_CA : Int := 24

def X509_V_ERR_PATH_LENGTH_EXCEEDED : Int := 25

def X509_V_ERR_INVALID_PURPOSE : Int := 26

def X509_V_ERR_CERT_UNTRUSTED : Int := 27

def X509_V_ERR_CERT_REJECTED : Int := 28

/-- The verification codes named by the switch in `tls_conn_verify_error`,
in source order. -/
def recognized_verify_codes : List Int :=
  [X509_V_ERR_UNABLE_TO_GET_ISSUER_CERT,
   X509_V_ERR_UNABLE_TO_GET_CRL,
   X509_V_ERR_UNABLE_TO_DECRYPT_CERT_SIGNATURE,
   X509_V_ERR_UNABLE_TO_DECRYPT_CRL_SIGNATURE,
   X509_V_ERR_UNABLE_TO_DECODE_ISSUER_PUBLIC_KEY,
   X509_V_ERR_CERT_SIGNATURE_FAILURE,
   X509_V_ERR_CRL_SIGNATURE_FAILURE,
   X509_V_ERR_CERT_NOT_YET_VALID,
   X509_V_ERR_CERT_HAS_EXPIRED,
   X509_V_ERR_CRL_NOT_YET_VALID,
   X509_V_ERR_CRL_HAS_EXPIRED,
   X509_V_ERR_ERROR_IN_CERT_NOT_BEFORE_FIELD,
   X509_V_ERR_ERROR_IN_CERT_NOT_AFTER_FIELD,
   X509_V_ERR_ERROR_IN_CRL_LAST_UPDATE_FIELD,
   X509_V_ERR_ERROR_IN_CRL_NEXT_UPDATE_FIELD,
   X509_V_ERR_OUT_OF_MEM,
   X509_V_ERR_DEPTH_ZERO_SELF_SIGNED_CERT,
   X509_V_ERR_SELF_SIGNED_CERT_IN_CHAIN,
   X509_V_ERR_UNABLE_TO_GET_ISSUER_CERT_LOCALLY,
   X509_V_ERR_UNABLE_TO_VERIFY_LEAF_SIGNATURE,
   X509_V_ERR_CERT_CHAIN_TOO_LONG,
   X509_V_ERR_CERT_REVOKED,
   X509_V_ERR_INVALID_CA,
   X509_V_ERR_PATH_LENGTH_EXCEEDED,
   X509_V_ERR_INVALID_PURPOSE,
   X509_V_ERR_CERT_UNTRUSTED,
   X509_V_ERR_CERT_REJECTED]

/-- The fixed display names of the switch in `tls_conn_verify_error`, aligned
with `recognized_verify_codes`. -/
def recognized_verify_names : List String :=
  ["UNABLE_TO_GET_ISSUER_CERT",
   "UNABLE_TO_GET_CRL",
   "UNABLE_TO_DECRYPT_CERT_SIGNATURE",
   "UNABLE_TO_DECRYPT_CRL_SIGNATURE",
   "UNABLE_TO_DECODE_ISSUER_PUBLIC_KEY",
   "CERT_SIGNATURE_FAILURE",
   "CRL_SIGNATURE_FAILURE",
   "CERT_NOT_YET_VALID",
   "CERT_HAS_EXPIRED",
   "CRL_NOT_YET_VALID",
   "CRL_HAS_EXPIRED",
   "ERROR_IN_CERT_NOT_BEFORE_FIELD",
   "ERROR_IN_CERT_NOT_AFTER_FIELD",
   "ERROR_IN_CRL_LAST_UPDATE_FIELD",
   "ERROR_IN_CRL_NEXT_UPDATE_FIELD",
   "OUT_OF_MEM",
   "DEPTH_ZERO_SELF_SIGNED_CERT",
   "SELF_SIGNED_CERT_IN_CHAIN",
   "UNABLE_TO_GET_ISSUER_CERT_LOCALLY",
   "UNABLE_TO_VERIFY_LEAF_SIGNATURE",
   "CERT_CHAIN_TOO_LONG",
   "CERT_REVOKED",
   "INVALID_CA",
   "PATH_LENGTH_EXCEEDED",
   "INVALID_PURPOSE",
   "CERT_UNTRUSTED",
   "CERT_REJECTED"]

/-- `tls_conn_verify_error`: without a peer certificate, a fixed message;
with one, nil for `X509_V_OK`, the fixed name for each code the switch
recognizes, otherwise the library fallback `X509_verify_cert_error_string`
(here the abstract parameter `defaultDesc`). -/
def tls_conn_verify_error (defaultDesc : Int → String) (has_peer_cert : Bool)
    (verify : Int) : Option String :=
  if !has_peer_cert then some "Unable to get peer certificate"
  else if verify = X509_V_OK then none
  else if verify = X509_V_ERR_UNABLE_TO_GET_ISSUER_CERT then some "UNABLE_TO_GET_ISSUER_CERT"
  else if verify = X509_V_ERR_UNABLE_TO_GET_CRL then some "UNABLE_TO_GET_CRL"
  else if verify = X509_V_ERR_UNABLE_TO_DECRYPT_CERT_SIGNATURE then some "UNABLE_TO_DECRYPT_CERT_SIGNATURE"
  else if verify = X509_V_ERR_UNABLE_TO_DECRYPT_CRL_SIGNATURE then some "UNABLE_TO_DECRYPT_CRL_SIGNATURE"
  else if verify = X509_V_ERR_UNABLE_TO_DECODE_ISSUER_PUBLIC_KEY then some "UNABLE_TO_DECODE_ISSUER_PUBLIC_KEY"
  else if verify = X509_V_ERR_CERT_SIGNATURE_FAILURE then some "CERT_SIGNATURE_FAILURE"
  else if verify = X509_V_ERR_CRL_SIGNATURE_FAILURE then some "CRL_SIGNATURE_FAILURE"
  else if verify = X509_V_ERR_CERT_NOT_YET_VALID then some "CERT_NOT_YET_VALID"
  else if verify = X509_V_ERR_CERT_HAS_EXPIRED then some "CERT_HAS_EXPIRED"
  else if verify = X509_V_ERR_CRL_NOT_YET_VALID then some "CRL_NOT_YET_VALID"
  else if verify = X509_V_ERR_CRL_HAS_EXPIRED then some "CRL_HAS_EXPIRED"
  else if verify = X509_V_ERR_ERROR_IN_CERT_NOT_BEFORE_FIELD then some "ERROR_IN_CERT_NOT_BEFORE_FIELD"
  else if verify = X509_V_ERR_ERROR_IN_CERT_NOT_AFTER_FIELD then some "ERROR_IN_CERT_NOT_AFTER_FIELD"
  else if verify = X509_V_ERR_ERROR_IN_CRL_LAST_UPDATE_FIELD then some "ERROR_IN_CRL_LAST_UPDATE_FIELD"
  else if verify = X509_V_ERR_ERROR_IN_CRL_NEXT_UPDATE_FIELD then some "ERROR_IN_CRL_NEXT_UPDATE_FIELD"
  else if verify = X509_V_ERR_OUT_OF_MEM then some "OUT_OF_MEM"
  else if verify = X509_V_ERR_DEPTH_ZERO_SELF_SIGNED_CERT then some "DEPTH_ZERO_SELF_SIGNED_CERT"
  else if verify = X509_V_ERR_SELF_SIGNED_CERT_IN_CHAIN then some "SELF_SIGNED_CERT_IN_CHAIN"
  else if verify = X509_V_ERR_UNABLE_TO_GET_ISSUER_CERT_LOCALLY then some "UNABLE_TO_GET_ISSUER_CERT_LOCALLY"
  else if verify = X509_V_ERR_UNABLE_TO_VERIFY_LEAF_SIGNATURE then some "UNABLE_TO_VERIFY_LEAF_SIGNATURE"
  else if verify = X509_V_ERR_CERT_CHAIN_TOO_LONG then some "CERT_CHAIN_TOO_LONG"
  else if verify = X509_V_ERR_CERT_REVOKED then some "CERT_REVOKED"
  else if verify = X509_V_ERR_INVALID_CA then some "INVALID_CA"
  else if verify = X509_V_ERR_PATH_LENGTH_EXCEEDED then some "PATH_LENGTH_EXCEEDED"
  else if verify = X509_V_ERR_INVALID_PURPOSE then some "INVALID_PURPOSE"
  else if verify = X509_V_ERR_CERT_UNTRUSTED then some "CERT_UNTRUSTED"
  else if verify = X509_V_ERR_CERT_REJECTED then some "CERT_REJECTED"
  else some (defaultDesc verify)

/-- The hex table of the fingerprint loop in `tls_conn_get_peer_certificate`. -/
def hex_table : List Char :=
  ['0', '1', '2', '3', '4', '5', '6', '7', '8', '9', 'A', 'B', 'C', 'D', 'E', 'F']

def hex_digit (n : Nat) : Char := hex_table.getD n '0'

/-- One iteration of the fingerprint loop: high nibble, low nibble, colon. -/
def fingerprint_triple (b : Nat) : List Char :=
  [hex_digit ((b &&& 0xf0) >>> 4), hex_digit (b &&& 0x0f), ':']

/-- The fingerprint buffer contents after the loop over all digest bytes. -/
def fingerprint_chars (md : List Nat) : List Char :=
  (md.map fingerprint_triple).flatten

/-- The hex pair written for one digest byte (the triple without the colon). -/
def hex_pair (b : Nat) : List Char :=
  [hex_digit ((b &&& 0xf0) >>> 4), hex_digit (b &&& 0x0f)]

/-- The fingerprint string: for a non-empty digest the loop output with the
final colon overwritten by the terminator; for an empty digest the empty
string. -/
def tls_fingerprint (md : List Nat) : String :=
  if md = [] then "" else ⟨(fingerprint_chars md).dropLast⟩

/-- Concrete engine over `Unit` whose handshake and record calls all fail
with a fatal (non-retry) status -1 / SSL_ERROR_SSL. -/
def fatalEngine : EngineModel Unit where
  initFinished := fun _ => false
  accept := fun s => (s, -1)
  connect := fun s => (s, -1)
  sslRead := fun s _ => (s, -1, [])
  sslWrite := fun s _ => (s, -1)
  getError := fun _ _ => SSL_ERROR_SSL

/-- Concrete engine over `Unit` whose failures all classify as WANT_READ. -/
def wantReadEngine : EngineModel Unit where
  initFinished := fun _ => false
  accept := fun s => (s, -1)
  connect := fun s => (s, -1)
  sslRead := fun s _ => (s, -1, [])
  sslWrite := fun s _ => (s, -1)
  getError := fun _ _ => SSL_ERROR_WANT_READ

/-- Concrete engine over `Unit` whose handshake is already finished. -/
def doneEngine : EngineModel Unit where
  initFinished := fun _ => true
  accept := fun s => (s, 1)
  connect := fun s => (s, 1)
  sslRead := fun s _ => (s, 0, [])
  sslWrite := fun s d => (s, (d.length : Int))
  getError := fun _ _ => SSL_ERROR_NONE

/-- Concrete engine over `Nat` (the state counts record-layer calls) whose
handshake step returns 0 and never completes: SSL_accept's documented
"not successful but shut down controlled" outcome. -/
def zeroStepEngine : EngineModel Nat where
  initFinished := fun _ => false
  accept := fun s => (s, 0)
  connect := fun s => (s, 0)
  sslRead := fun s _ => (s + 1, 7, [])
  sslWrite := fun s _ => (s + 1, 7)
  getError := fun _ _ => SSL_ERROR_WANT_READ

/-- A fresh server-role connection over the `Unit` engine state. -/
def tcU : tls_conn_t Unit := ⟨(), emptyBio, emptyBio, true, 0⟩

/-- A fresh client-role connection over the `Unit` engine state. -/
def tcC : tls_conn_t Unit := ⟨(), emptyBio, emptyBio, false, 0⟩

/-- A fresh server-role connection over the counting engine state. -/
def tcN : tls_conn_t Nat := ⟨0, emptyBio, emptyBio, true, 0⟩

/-- The SSL-side operations never touch the `error` field: `start`. -/
theorem start_error_eq {σ : Type} (E : EngineModel σ) (tc : tls_conn_t σ) :
    (tls_conn_start E tc).1.error = tc.error := by
  unfold tls_conn_start
  split <;> rfl

/-- The SSL-side operations never touch the `error` field: `clearIn`. -/
theorem clear_in_error_eq {σ : Type} (E : EngineModel σ) (tc : tls_conn_t σ)
    (data : List Nat) : (tls_conn_clear_in E tc data).1.error = tc.error := by
  unfold tls_conn_clear_in
  split
  · dsimp only
    split <;> split <;> rfl
  · rfl

/-- The SSL-side operations never touch the `error` field: `clearOut`. -/
theorem clear_out_error_eq {σ : Type} (E : EngineModel σ) (tc : tls_conn_t σ) :
    (tls_conn_clear_out E tc).1.error = tc.error := by
  unfold tls_conn_clear_out
  split
  · dsimp only
    split <;> split <;> rfl
  · rfl

/-- `encIn` writes into a memory BIO, which always succeeds, so the handler
takes its non-negative early exit and the `error` field is untouched. -/
theorem enc_in_error_eq {σ : Type} (tc : tls_conn_t σ) (data : List Nat) :
    (tls_conn_enc_in tc data).1.error = tc.error := by
  unfold tls_conn_enc_in tls_handle_bio_error_x BIO_write
  simp

/-- `encOut` either reads non-negatively or hits the memory BIO's retry-read
flag, so the handler never reaches its fatal branch: `error` is untouched. -/
theorem enc_out_error_eq {σ : Type} (tc : tls_conn_t σ) :
    (tls_conn_enc_out tc).1.error = tc.error := by
  unfold tls_conn_enc_out tls_handle_bio_error_x BIO_read BIO_should_write BIO_should_read
  by_cases h : tc.bio_write.data = [] <;> simp [h]

/-- Claim C1 is false on the code: `tls_handle_ssl_error_x` never records a
fatal status in the connection's `error` field.  Concretely, with an engine
whose handshake step fails with status -1 classified `SSL_ERROR_SSL`
(negative and not a retry condition), `start` returns -1 yet `lastError`
stays 0 / none. -/
theorem C1_fatal_ssl_status_not_recorded :
    (tls_conn_start fatalEngine tcU).2 = -1 ∧
    fatalEngine.getError () (-1) = SSL_ERROR_SSL ∧
    SSL_ERROR_SSL ≠ SSL_ERROR_WANT_READ ∧
    SSL_ERROR_SSL ≠ SSL_ERROR_WANT_WRITE ∧
    (tls_conn_start fatalEngine tcU).1.error = 0 ∧
    tls_conn_get_error (tls_conn_start fatalEngine tcU).1 = none := by
  decide

/-- Claim C1 (amended): only the buffer-error path records a fatal status in
`lastError`: `tls_handle_bio_error_x` stores a negative non-retry status in
the `error` field and returns it, while the handshake-driving and cleartext
operations (which classify through `tls_handle_ssl_error_x`) return fatal
statuses to the caller but leave `lastError` unchanged. -/
theorem C1_amended_only_bio_path_records {σ : Type} (E : EngineModel σ)
    (tc : tls_conn_t σ) (bio : MemBio) (rv : Int) (hneg : rv < 0)
    (hw : BIO_should_write bio = false) (hr : BIO_should_read bio = false) :
    tls_handle_bio_error_x tc bio rv = ({ tc with error := rv }, rv) ∧
    (∀ ssl, E.getError ssl rv ≠ SSL_ERROR_NONE →
      E.getError ssl rv ≠ SSL_ERROR_WANT_WRITE →
      E.getError ssl rv ≠ SSL_ERROR_WANT_READ →
      tls_handle_ssl_error_x E ssl rv = rv) ∧
    (∀ tc2 : tls_conn_t σ, (tls_conn_start E tc2).1.error = tc2.error) ∧
    (∀ (tc2 : tls_conn_t σ) data, (tls_conn_clear_in E tc2 data).1.error = tc2.error) ∧
    (∀ tc2 : tls_conn_t σ, (tls_conn_clear_out E tc2).1.error = tc2.error) := by
  refine ⟨?_, ?_, fun tc2 => start_error_eq E tc2,
    fun tc2 data => clear_in_error_eq E tc2 data,
    fun tc2 => clear_out_error_eq E tc2⟩
  · unfold tls_handle_bio_error_x
    rw [if_neg (by omega), hw, hr]
    simp
  · intro ssl h0 hww hwr
    unfold tls_handle_ssl_error_x
    rw [if_neg (by omega)]
    simp [h0, hww, hwr]

/-- Witness for the amended C1 at a concrete fatal buffer status. -/
theorem C1_amended_only_bio_path_records_witness :
    tls_handle_bio_error_x tcU emptyBio (-1) = ({ tcU with error := -1 }, -1) :=
  (C1_amended_only_bio_path_records fatalEngine tcU emptyBio (-1)
    (by decide) rfl rfl).1

/-- Claim C2: a transient status (WANT_READ / WANT_WRITE on the SSL side, a
retrying BIO on the buffer side) classifies to 0 and records no error; and
in fact every operation of the module leaves the `error` field unchanged
except the buffer handler's fatal branch, so transient outcomes never mutate
`lastError`. -/
theorem C2_transient_records_no_error {σ : Type} (E : EngineModel σ)
    (ssl : σ) (tc : tls_conn_t σ) (bio : MemBio) (rv : Int) (hneg : rv < 0)
    (hssl : E.getError ssl rv = SSL_ERROR_WANT_READ ∨
      E.getError ssl rv = SSL_ERROR_WANT_WRITE)
    (hbio : BIO_should_write bio = true ∨ BIO_should_read bio = true) :
    tls_handle_ssl_error_x E ssl rv = 0 ∧
    tls_handle_bio_error_x tc bio rv = (tc, 0) ∧
    (∀ tc2 : tls_conn_t σ, (tls_conn_start E tc2).1.error = tc2.error) ∧
    (∀ (tc2 : tls_conn_t σ) data, (tls_conn_clear_in E tc2 data).1.error = tc2.error) ∧
    (∀ tc2 : tls_conn_t σ, (tls_conn_clear_out E tc2).1.error = tc2.error) ∧
    (∀ (tc2 : tls_conn_t σ) data, (tls_conn_enc_in tc2 data).1.error = tc2.error) ∧
    (∀ tc2 : tls_conn_t σ, (tls_conn_enc_out tc2).1.error = tc2.error) := by
  refine ⟨?_, ?_, fun tc2 => start_error_eq E tc2,
    fun tc2 data => clear_in_error_eq E tc2 data,
    fun tc2 => clear_out_error_eq E tc2,
    fun tc2 data => enc_in_error_eq tc2 data,
    fun tc2 => enc_out_error_eq tc2⟩
  · unfold tls_handle_ssl_error_x
    rw [if_neg (by omega)]
    rcases hssl with h | h <;> simp [h, SSL_ERROR_WANT_READ, SSL_ERROR_WANT_WRITE, SSL_ERROR_NONE]
  · unfold tls_handle_bio_error_x
    rw [if_neg (by omega)]
    rcases hbio with h | h <;> simp [h]

/-- Witness for C2 at a concrete WANT_READ status and a retrying BIO. -/
theorem C2_transient_records_no_error_witness :
    tls_handle_ssl_error_x wantReadEngine () (-1) = 0 ∧
    tls_handle_bio_error_x tcU ⟨[], true, false⟩ (-1) = (tcU, 0) :=
  ⟨(C2_transient_records_no_error wantReadEngine () tcU ⟨[], true, false⟩ (-1)
      (by decide) (Or.inl rfl) (Or.inr rfl)).1,
   (C2_transient_records_no_error wantReadEngine () tcU ⟨[], true, false⟩ (-1)
      (by decide) (Or.inl rfl) (Or.inr rfl)).2.1⟩

/-- Claim C9: `clearError` resets the stored code to 0, after which
`getError` reports none; `getError` reports none exactly when the stored
code is 0; and no operation of the module other than the buffer handler's
fatal branch mutates the field, so a subsequent successful or transient
operation cannot resurrect a cleared error. -/
theorem C9_error_lifecycle {σ : Type} (E : EngineModel σ) (tc : tls_conn_t σ) :
    (tls_conn_clear_error tc).error = 0 ∧
    tls_conn_get_error (tls_conn_clear_error tc) = none ∧
    (tls_conn_get_error tc = none ↔ tc.error = 0) ∧
    tls_conn_get_error (tls_conn_start E (tls_conn_clear_error tc)).1 = none ∧
    (∀ data, tls_conn_get_error (tls_conn_clear_in E (tls_conn_clear_error tc) data).1 = none) ∧
    tls_conn_get_error (tls_conn_clear_out E (tls_conn_clear_error tc)).1 = none ∧
    (∀ data, tls_conn_get_error (tls_conn_enc_in (tls_conn_clear_error tc) data).1 = none) ∧
    tls_conn_get_error (tls_conn_enc_out (tls_conn_clear_error tc)).1 = none := by
  refine ⟨rfl, rfl, ?_, ?_, ?_, ?_, ?_, ?_⟩
  · unfold tls_conn_get_error
    by_cases h : tc.error = 0 <;> simp [h]
  · simp [tls_conn_get_error, start_error_eq, tls_conn_clear_error]
  · intro data
    simp [tls_conn_get_error, clear_in_error_eq, tls_conn_clear_error]
  · simp [tls_conn_get_error, clear_out_error_eq, tls_conn_clear_error]
  · intro data
    simp [tls_conn_get_error, enc_in_error_eq, tls_conn_clear_error]
  · simp [tls_conn_get_error, enc_out_error_eq, tls_conn_clear_error]

/-- Claim C3 is false on the code: the guard before the record-layer call is
`rv < 0`, not "handshake still incomplete".  With an engine whose handshake
step returns 0 (OpenSSL's "not successful, shut down controlled" outcome)
and never completes, `clearOut`/`clearIn` still invoke SSL_read/SSL_write
(the engine state counts record calls: it steps 0 → 1) and return the record
call's status 7 rather than the handshake step's status 0. -/
theorem C3_zero_step_proceeds_to_record_call :
    zeroStepEngine.initFinished tcN.ssl = false ∧
    (zeroStepEngine.accept tcN.ssl).2 = 0 ∧
    zeroStepEngine.initFinished (zeroStepEngine.accept tcN.ssl).1 = false ∧
    (tls_conn_clear_out zeroStepEngine tcN).1.ssl = 1 ∧
    (tls_conn_clear_out zeroStepEngine tcN).2.1 = 7 ∧
    (tls_conn_clear_in zeroStepEngine tcN [104]).1.ssl = 1 ∧
    (tls_conn_clear_in zeroStepEngine tcN [104]).2 = 7 := by
  decide

/-- Claim C3 (amended): on a connection whose handshake is not complete,
`clearOut`/`clearIn` first drive the handshake; if the handshake step's
status is negative they return exactly that status with the step's engine
state and no bytes — SSL_read/SSL_write are not consulted — while a
non-negative step status proceeds to decryption/encryption even if the
handshake is still incomplete. -/
theorem C3_amended_negative_step_short_circuits {σ : Type} (E : EngineModel σ)
    (tc : tls_conn_t σ) (data : List Nat)
    (hnf : E.initFinished tc.ssl = false)
    (hneg : (if tc.is_server then E.accept tc.ssl else E.connect tc.ssl).2 < 0) :
    tls_conn_clear_out E tc =
      ({ tc with ssl := (if tc.is_server then E.accept tc.ssl else E.connect tc.ssl).1 },
       (if tc.is_server then E.accept tc.ssl else E.connect tc.ssl).2, []) ∧
    tls_conn_clear_in E tc data =
      ({ tc with ssl := (if tc.is_server then E.accept tc.ssl else E.connect tc.ssl).1 },
       (if tc.is_server then E.accept tc.ssl else E.connect tc.ssl).2) := by
  constructor
  · unfold tls_conn_clear_out
    rw [hnf]
    rw [if_pos (by decide : (!false) = true)]
    dsimp only
    rw [if_pos hneg]
  · unfold tls_conn_clear_in
    rw [hnf]
    rw [if_pos (by decide : (!false) = true)]
    dsimp only
    rw [if_pos hneg]

/-- Witness for the amended C3: a fatal handshake step short-circuits both
cleartext operations. -/
theorem C3_amended_negative_step_short_circuits_witness :
    tls_conn_clear_out fatalEngine tcU = (tcU, -1, []) ∧
    tls_conn_clear_in fatalEngine tcU [104] = (tcU, -1) :=
  C3_amended_negative_step_short_circuits fatalEngine tcU [104] rfl (by decide)

/-- Claim C4: `start` runs the engine's accept step for the Server role and
the connect step for the Client role, only when the handshake is unfinished,
and returns the raw step status; once the handshake is finished it performs
no engine step, returns 0 and leaves the connection unchanged (hence
repeated calls are safe). -/
theorem C4_start_spec {σ : Type} (E : EngineModel σ) (tc : tls_conn_t σ) :
    (E.initFinished tc.ssl = true → tls_conn_start E tc = (tc, 0)) ∧
    (E.initFinished tc.ssl = false → tc.is_server = true →
      tls_conn_start E tc = ({ tc with ssl := (E.accept tc.ssl).1 }, (E.accept tc.ssl).2)) ∧
    (E.initFinished tc.ssl = false → tc.is_server = false →
      tls_conn_start E tc = ({ tc with ssl := (E.connect tc.ssl).1 }, (E.connect tc.ssl).2)) := by
  refine ⟨?_, ?_, ?_⟩
  · intro h
    unfold tls_conn_start
    rw [h]
    rfl
  · intro h hs
    unfold tls_conn_start
    rw [h, hs]
    rfl
  · intro h hs
    unfold tls_conn_start
    rw [h, hs]
    rfl

/-- Witness for C4: a finished handshake is a no-op returning 0; an
unfinished one returns the raw accept (server) / connect (client) status. -/
theorem C4_start_spec_witness :
    tls_conn_start doneEngine tcU = (tcU, 0) ∧
    tls_conn_start fatalEngine tcU = (tcU, -1) ∧
    tls_conn_start fatalEngine tcC = (tcC, -1) :=
  ⟨(C4_start_spec doneEngine tcU).1 rfl,
   (C4_start_spec fatalEngine tcU).2.1 rfl rfl,
   (C4_start_spec fatalEngine tcC).2.2 rfl rfl⟩

/-- Claim C5 is false on the code: `encIn` appends to `bio_read` while
`encOut` drains the distinct `bio_write`, so feeding bytes and immediately
draining (no engine processing in between) yields no bytes at all, not the
fed sequence: feeding [97, 98] accepts 2 bytes, yet the drain returns status
-1 with the empty byte string. -/
theorem C5_feed_then_drain_is_not_a_roundtrip :
    (tls_conn_enc_in tcU [97, 98]).2 = 2 ∧
    tls_conn_enc_pending (tls_conn_enc_in tcU [97, 98]).1 = 0 ∧
    (tls_conn_enc_out (tls_conn_enc_in tcU [97, 98]).1).2.1 = -1 ∧
    (tls_conn_enc_out (tls_conn_enc_in tcU [97, 98]).1).2.2 = [] ∧
    ([] : List Nat) ≠ [97, 98] := by
  decide

/-- Claim C5 (amended): the buffer pair round-trips per buffer, not across
the pair: `encIn` appends the fed bytes verbatim (in order) to `bio_read`
and leaves `bio_write` untouched, so an immediate `encOut` drains nothing;
bytes sitting in `bio_write` are drained by `encOut` exactly and in order
(whenever they fit the 4096-byte pool). -/
theorem C5_amended_per_buffer_roundtrip {σ : Type} (tc : tls_conn_t σ)
    (data w : List Nat) (hw : tc.bio_write.data = [])
    (hlen : w.length ≤ 4096) :
    (tls_conn_enc_in tc data).1.bio_read.data = tc.bio_read.data ++ data ∧
    (tls_conn_enc_in tc data).1.bio_write = tc.bio_write ∧
    (tls_conn_enc_out (tls_conn_enc_in tc data).1).2.2 = [] ∧
    (tls_conn_enc_out { tc with bio_write := ⟨w, false, false⟩ }).2.2 = w := by
  refine ⟨?_, ?_, ?_, ?_⟩
  · simp [tls_conn_enc_in, BIO_write, tls_handle_bio_error_x]
  · simp [tls_conn_enc_in, BIO_write, tls_handle_bio_error_x]
  · simp [tls_conn_enc_in, tls_conn_enc_out, BIO_write, BIO_read,
      tls_handle_bio_error_x, hw]
  · by_cases hnil : w = []
    · simp [tls_conn_enc_out, BIO_read, tls_handle_bio_error_x, hnil]
    · have htake : w.take 4096 = w := List.take_of_length_le hlen
      have hpos : 0 < w.length := List.length_pos.mpr hnil
      simp [tls_conn_enc_out, BIO_read, tls_handle_bio_error_x, hnil, htake, hpos]

/-- Witness for the amended C5 at concrete byte sequences. -/
theorem C5_amended_per_buffer_roundtrip_witness :
    (tls_conn_enc_in tcU [97, 98]).1.bio_read.data = tcU.bio_read.data ++ [97, 98] ∧
    (tls_conn_enc_in tcU [97, 98]).1.bio_write = tcU.bio_write ∧
    (tls_conn_enc_out (tls_conn_enc_in tcU [97, 98]).1).2.2 = [] ∧
    (tls_conn_enc_out { tcU with bio_write := ⟨[5, 6], false, false⟩ }).2.2 = [5, 6] :=
  C5_amended_per_buffer_roundtrip tcU [97, 98] [5, 6] rfl (by decide)

/-- A compliant engine's read result, filtered through the positive-count
check, fits the 4096-byte pool. -/
theorem ite_read_length_le {σ : Type} (E : EngineModel σ) (hE : ReadRespectsMax E)
    (s : σ) :
    (if 0 < (E.sslRead s 4096).2.1 then (E.sslRead s 4096).2.2 else []).length ≤ 4096 := by
  split
  · exact hE s 4096
  · simp

/-- Claim C10: one `encOut` or `clearOut` call hands back at most 4096 bytes
— the stack pool size hard-wired at both call sites; neither operation takes
a caller-supplied maximum.  The engine obligation `ReadRespectsMax` is
`SSL_read`'s API contract of depositing at most the requested byte count. -/
theorem C10_single_call_pool_limit {σ : Type} (E : EngineModel σ)
    (tc : tls_conn_t σ) (hE : ReadRespectsMax E) :
    (tls_conn_enc_out tc).2.2.length ≤ 4096 ∧
    (tls_conn_clear_out E tc).2.2.length ≤ 4096 := by
  constructor
  · unfold tls_conn_enc_out
    dsimp only
    by_cases h : tc.bio_write.data = []
    · simp [BIO_read, h]
    · unfold BIO_read
      rw [if_neg h]
      dsimp only
      split
      · simp only [List.length_take]
        omega
      · simp
  · unfold tls_conn_clear_out
    try dsimp only
    by_cases hfin : (!(E.initFinished tc.ssl)) = true
    · rw [if_pos hfin]
      try dsimp only
      by_cases hneg : (if tc.is_server then E.accept tc.ssl else E.connect tc.ssl).2 < 0
      · rw [if_pos hneg]
        simp
      · rw [if_neg hneg]
        try dsimp only
        exact ite_read_length_le E hE _
    · rw [if_neg hfin]
      try dsimp only
      exact ite_read_length_le E hE _

/-- Witness for C10 with a compliant concrete engine. -/
theorem C10_single_call_pool_limit_witness :
    (tls_conn_enc_out tcU).2.2.length ≤ 4096 ∧
    (tls_conn_clear_out doneEngine tcU).2.2.length ≤ 4096 :=
  C10_single_call_pool_limit doneEngine tcU (fun s n => by simp [doneEngine])

/-- Claim C6: the verify mode is derived once from role and flags — a client
always gets SSL_VERIFY_NONE whatever the flags; a server gets NONE without
request-cert, PEER with it, additionally FAIL_IF_NO_PEER_CERT when
reject-unauthorized is also set — and the installed callback
`tls_conn_verify_cb` always answers 1 ("continue"), so certificate problems
never abort the handshake. -/
theorem C6_verify_mode_spec :
    (∀ rq rj, newCONN_verify_mode false rq rj = SSL_VERIFY_NONE) ∧
    (∀ rj, newCONN_verify_mode true false rj = SSL_VERIFY_NONE) ∧
    newCONN_verify_mode true true false = SSL_VERIFY_PEER ∧
    newCONN_verify_mode true true true =
      (SSL_VERIFY_PEER ||| SSL_VERIFY_FAIL_IF_NO_PEER_CERT) ∧
    (∀ σ : Type, ∀ ssl0 : σ, ∀ s rq rj,
      (newCONN σ ssl0 s rq rj).2 = newCONN_verify_mode s rq rj) ∧
    (∀ p : Int, tls_conn_verify_cb p = 1) := by
  exact ⟨by decide, by decide, by decide, by decide,
    fun σ ssl0 s rq rj => rfl, fun p => rfl⟩

/-- Claim C7: without a peer certificate, `verifyError` answers the
distinguished "Unable to get peer certificate" string; with one, X509_V_OK
maps to the explicit no-error result (nil), each of the 27 codes recognized
by the switch maps to its fixed name (independently of the library
fallback), and every unrecognized non-OK code falls back to the library's
default description. -/
theorem C7_verify_error_spec :
    (∀ d v, tls_conn_verify_error d false v = some "Unable to get peer certificate") ∧
    (∀ d, tls_conn_verify_error d true X509_V_OK = none) ∧
    (∀ d, recognized_verify_codes.map (tls_conn_verify_error d true) =
      recognized_verify_names.map some) ∧
    (∀ d v, v ≠ X509_V_OK → v ∉ recognized_verify_codes →
      tls_conn_verify_error d true v = some (d v)) := by
  refine ⟨fun d v => rfl, fun d => rfl, fun d => rfl, ?_⟩
  intro d v hok hmem
  simp only [recognized_verify_codes, List.mem_cons, List.not_mem_nil, or_false,
    not_or] at hmem
  obtain ⟨h1, h2, h3, h4, h5, h6, h7, h8, h9, h10, h11, h12, h13, h14, h15,
    h16, h17, h18, h19, h20, h21, h22, h23, h24, h25, h26, h27⟩ := hmem
  simp [tls_conn_verify_error, hok, h1, h2, h3, h4, h5, h6, h7, h8, h9, h10,
    h11, h12, h13, h14, h15, h16, h17, h18, h19, h20, h21, h22, h23, h24,
    h25, h26, h27]

/-- Witness for C7: a concrete unrecognized code (50) takes the library
fallback, and the other branches at concrete inputs. -/
theorem C7_verify_error_spec_witness :
    tls_conn_verify_error (fun _ => "FALLBACK") true 50 = some "FALLBACK" :=
  C7_verify_error_spec.2.2.2 (fun _ => "FALLBACK") 50 (by decide) (by decide)

/-- The fingerprint loop writes exactly three characters per digest byte. -/
theorem fingerprint_chars_length (md : List Nat) :
    (fingerprint_chars md).length = 3 * md.length := by
  induction md with
  | nil => rfl
  | cons b rest ih =>
    simp only [fingerprint_chars, List.map_cons, List.flatten_cons,
      List.length_append, List.length_cons, fingerprint_triple] at ih ⊢
    simp [ih]
    ring

/-- The fingerprint loop's output is the hex pairs interleaved with colons,
plus one trailing colon (the one the terminator overwrites). -/
theorem fingerprint_chars_eq_intercalate (md : List Nat) (h : md ≠ []) :
    fingerprint_chars md = List.intercalate [':'] (md.map hex_pair) ++ [':'] := by
  induction md with
  | nil => exact absurd rfl h
  | cons b rest ih =>
    cases rest with
    | nil =>
      simp [fingerprint_chars, fingerprint_triple, hex_pair, List.intercalate]
    | cons c rest2 =>
      have h2 := ih (by simp)
      simp only [fingerprint_chars, List.map_cons, List.flatten_cons] at h2 ⊢
      rw [h2]
      simp only [List.intercalate, List.map_cons, List.intersperse_cons_cons,
        List.flatten_cons, fingerprint_triple, hex_pair]
      simp

/-- Claim C8: the rendered fingerprint is the digest's uppercase hex pairs
joined by single colons with no trailing colon; a non-empty digest of n
bytes renders to 3n-1 characters, and the empty digest renders to the empty
string. -/
theorem C8_fingerprint_spec (md : List Nat) (h : md ≠ []) :
    tls_fingerprint md = String.mk (List.intercalate [':'] (md.map hex_pair)) ∧
    (tls_fingerprint md).length = 3 * md.length - 1 ∧
    tls_fingerprint [] = "" := by
  refine ⟨?_, ?_, rfl⟩
  · unfold tls_fingerprint
    rw [if_neg h, fingerprint_chars_eq_intercalate md h, List.dropLast_concat]
  · unfold tls_fingerprint
    rw [if_neg h]
    show (fingerprint_chars md).dropLast.length = _
    rw [List.length_dropLast, fingerprint_chars_length]

/-- Witness for C8 at the concrete digest [0x12, 0xAB], whose rendering is
"12:AB" of length 5 = 3·2 - 1. -/
theorem C8_fingerprint_spec_witness :
    (tls_fingerprint [0x12, 0xAB] =
      String.mk (List.intercalate [':'] ([0x12, 0xAB].map hex_pair)) ∧
     (tls_fingerprint [0x12, 0xAB]).length = 3 * [0x12, 0xAB].length - 1 ∧
     tls_fingerprint [] = "") ∧
    tls_fingerprint [0x12, 0xAB] = "12:AB" :=
  ⟨C8_fingerprint_spec [0x12, 0xAB] (by decide), by decide⟩
